import Mathlib

/-!
Shallow embedding of `src/tools/auth/orcid.go` (the ORCID OAuth2 identity
provider of pocketbase-ORCID) and proofs about the specification claims.

The only non-trivial code in the repository is the method
`(p *ORCID) FetchAuthUser(token *oauth2.Token) (*AuthUser, error)` together
with the constructor `NewORCIDProvider`.  External collaborators
(`http.NewRequestWithContext` success, `BaseProvider.sendRawUserInfoRequest`,
`types.ParseDateTime`) are modelled as an explicit environment record, and
the one instance-field write (`p.userInfoURL`) plus the outbound requests are
made explicit in the result.
-/

/-- A JSON value.  This models both the bytes returned by the profile
endpoint (once lexically valid) and the dynamic `any` values stored in the
token's extra-field bag and in the decoded `map[string]any`. -/
inductive Json where
  | null : Json
  | bool (b : Bool) : Json
  | num (n : Int) : Json
  | str (s : String) : Json
  | arr (elems : List Json) : Json
  | obj (fields : List (String × Json)) : Json
deriving Repr

/-- The raw response body handed back by `sendRawUserInfoRequest`: either
bytes that parse as a JSON value, or bytes that are not valid JSON (in which
case every `json.Unmarshal` on them fails). -/
inductive Body where
  | valid (j : Json) : Body
  | invalid : Body

/-- Decidable equality for `Json` (structural, by recursion through the
nested lists). -/
def Json.beq : Json → Json → Bool
  | .null, .null => true
  | .bool a, .bool b => a == b
  | .num a, .num b => a == b
  | .str a, .str b => a == b
  | .arr a, .arr b => beqList a b
  | .obj a, .obj b => beqObj a b
  | _, _ => false
where
  beqList : List Json → List Json → Bool
    | [], [] => true
    | x :: xs, y :: ys => Json.beq x y && beqList xs ys
    | _, _ => false
  beqObj : List (String × Json) → List (String × Json) → Bool
    | [], [] => true
    | (k, x) :: xs, (l, y) :: ys => k == l && Json.beq x y && beqObj xs ys
    | _, _ => false

instance : BEq Json := ⟨Json.beq⟩

/-- The `oauth2.Token` input: access/refresh credentials, the expiry
timestamp (`time.Time`, modelled opaquely as an integer instant) and the
extra-field bag `token.raw` (string-keyed dynamic values). -/
structure Token where
  accessToken : String
  refreshToken : String
  expiry : Int
  raw : List (String × Json)

/-- `token.Extra(key)`: look the key up in the token's extra-field bag,
returning the dynamic value or nothing when the key is absent. -/
def Token.extra (t : Token) (key : String) : Option Json :=
  (t.raw.find? (fun kv => kv.1 = key)).map (fun kv => kv.2)

/-- The `BaseProvider` configuration state embedded in `ORCID`.  The Go
`context.Context` carries no data this code inspects, so it is modelled as
an opaque tag whose only observable property is identity. -/
structure BaseProvider where
  ctx : Nat
  displayName : String
  pkce : Bool
  scopes : List String
  authURL : String
  tokenURL : String
  userInfoURL : String
deriving Repr, DecidableEq

/-- `NewORCIDProvider` from the source: the defaults of the ORCID provider.
`context.Background()` is the distinguished tag `0`. -/
def NewORCIDProvider : BaseProvider :=
  { ctx := 0
    displayName := "ORCID"
    pkce := true
    scopes := ["/authenticate"]
    authURL := "https://orcid.org/oauth/authorize"
    tokenURL := "https://orcid.org/oauth/token"
    userInfoURL := "" }

/-- An outbound HTTP request as built by `FetchAuthUser`: method, target URL
and the added headers, in order. -/
structure HttpRequest where
  method : String
  url : String
  headers : List (String × String)
deriving Repr, DecidableEq

/-- The error taxonomy of `FetchAuthUser`:
`missingIdentifier` is the `fmt.Errorf("Failed to get ORCID iD from OAuth2 token")`
branch, `requestBuildError` a failure of `http.NewRequestWithContext`,
`fetchError` a failure propagated from `sendRawUserInfoRequest`, and
`malformedResponse` a `json.Unmarshal` failure (either parse). -/
inductive AuthError where
  | missingIdentifier : AuthError
  | requestBuildError : AuthError
  | fetchError (msg : String) : AuthError
  | malformedResponse : AuthError
deriving Repr, DecidableEq

/-- The typed projection of the profile document (the anonymous `extracted`
struct in the source): three name value-wrappers and the email list. -/
structure ValueField where
  value : String
deriving Repr, DecidableEq

structure NameStruct where
  givenNames : ValueField
  familyName : ValueField
  creditName : ValueField
deriving Repr, DecidableEq

structure EmailEntry where
  email : String
deriving Repr, DecidableEq

structure EmailsStruct where
  email : List EmailEntry
deriving Repr, DecidableEq

structure Extracted where
  name : NameStruct
  emails : EmailsStruct
deriving Repr, DecidableEq

/-- The normalized `AuthUser` record populated by `FetchAuthUser` (only the
fields the source assigns).  `Expiry` is a `types.DateTime`, modelled as an
integer instant with `0` the zero/unset value. -/
structure AuthUser where
  name : String
  username : String
  email : String
  rawUser : List (String × Json)
  accessToken : String
  refreshToken : String
  id : String
  expiry : Int
deriving Repr

/-- External collaborators of `FetchAuthUser`, threaded explicitly:
`urlOk` says whether `http.NewRequestWithContext` accepts the URL string;
`fetch` is `BaseProvider.sendRawUserInfoRequest` (transport or non-2xx
failures return an error message, success returns the body bytes);
`parseDateTime` is `types.ParseDateTime` on the token expiry instant,
returning `none` on parse failure. -/
structure Env where
  urlOk : String → Bool
  fetch : HttpRequest → Except String Body
  parseDateTime : Int → Option Int

/-- One call's outcome: the provider state after the call (the source
mutates `p.userInfoURL` in place), the outbound requests issued during the
call, and the `(AuthUser, error)` return value. -/
structure FetchOutcome where
  provider : BaseProvider
  requests : List HttpRequest
  result : Except AuthError AuthUser

/-- `map[string]any` insertion: `m[k] = v` overwrites an existing key and
otherwise appends. -/
def goMapInsert (m : List (String × Json)) (k : String) (v : Json) :
    List (String × Json) :=
  if m.any (fun kv => kv.1 = k) then
    m.map (fun kv => if kv.1 = k then (k, v) else kv)
  else
    m ++ [(k, v)]

/-- `json.Unmarshal` of a JSON object into `map[string]any`: the entries are
inserted in order, later duplicate keys overwriting earlier ones. -/
def goMapOfObj (kvs : List (String × Json)) : List (String × Json) :=
  kvs.foldl (fun m kv => goMapInsert m kv.1 kv.2) []

/-- `json.Unmarshal(data, &rawUser)` where `rawUser := map[string]any{}`:
fails when the bytes are not valid JSON or the top-level value is neither an
object nor `null` (unmarshalling `null` leaves the empty map untouched). -/
def unmarshalRaw : Body → Option (List (String × Json))
  | .invalid => none
  | .valid .null => some []
  | .valid (.obj kvs) => some (goMapOfObj kvs)
  | .valid _ => none

/-- Decode a JSON value into a Go `string` field holding `cur`: a JSON
string replaces it, `null` leaves it untouched, anything else is an
unmarshal type error. -/
def decString (cur : String) : Json → Option String
  | .null => some cur
  | .str s => some s
  | _ => none

/-- Decode into a `struct { Value string }` field: object keys are processed
in order, the key `"value"` decoding into the field, unknown keys ignored. -/
def decValueField (cur : ValueField) : Json → Option ValueField
  | .null => some cur
  | .obj kvs =>
    kvs.foldlM
      (fun acc kv =>
        if kv.1 = "value" then (decString acc.value kv.2).map ValueField.mk
        else some acc)
      cur
  | _ => none

/-- Decode into the `Name` sub-struct (keys `given-names`, `family-name`,
`credit-name`). -/
def decNameStruct (cur : NameStruct) : Json → Option NameStruct
  | .null => some cur
  | .obj kvs =>
    kvs.foldlM
      (fun acc kv =>
        if kv.1 = "given-names" then
          (decValueField acc.givenNames kv.2).map
            (fun v => { acc with givenNames := v })
        else if kv.1 = "family-name" then
          (decValueField acc.familyName kv.2).map
            (fun v => { acc with familyName := v })
        else if kv.1 = "credit-name" then
          (decValueField acc.creditName kv.2).map
            (fun v => { acc with creditName := v })
        else some acc)
      cur
  | _ => none

/-- Decode into a `struct { Email string }` list element (key `email`). -/
def decEmailEntry (cur : EmailEntry) : Json → Option EmailEntry
  | .null => some cur
  | .obj kvs =>
    kvs.foldlM
      (fun acc kv =>
        if kv.1 = "email" then (decString acc.email kv.2).map EmailEntry.mk
        else some acc)
      cur
  | _ => none

/-- Decode into `[]struct { Email string }`: a JSON array resets the slice
and decodes each element from the zero value, `null` leaves it untouched. -/
def decEmailList (cur : List EmailEntry) : Json → Option (List EmailEntry)
  | .null => some cur
  | .arr xs => xs.mapM (decEmailEntry ⟨""⟩)
  | _ => none

/-- Decode into the `Emails` sub-struct (key `email`). -/
def decEmailsStruct (cur : EmailsStruct) : Json → Option EmailsStruct
  | .null => some cur
  | .obj kvs =>
    kvs.foldlM
      (fun acc kv =>
        if kv.1 = "email" then (decEmailList acc.email kv.2).map EmailsStruct.mk
        else some acc)
      cur
  | _ => none

/-- The zero value of the anonymous `extracted` struct. -/
def Extracted.zero : Extracted :=
  { name := { givenNames := ⟨""⟩, familyName := ⟨""⟩, creditName := ⟨""⟩ }
    emails := { email := [] } }

/-- `json.Unmarshal(data, &extracted)`: decode the same bytes into the typed
projection (keys `name` and `emails`), failing on invalid JSON or any shape
mismatch. -/
def unmarshalExtracted : Body → Option Extracted
  | .invalid => none
  | .valid .null => some Extracted.zero
  | .valid (.obj kvs) =>
    kvs.foldlM
      (fun acc kv =>
        if kv.1 = "name" then
          (decNameStruct acc.name kv.2).map (fun v => { acc with name := v })
        else if kv.1 = "emails" then
          (decEmailsStruct acc.emails kv.2).map
            (fun v => { acc with emails := v })
        else some acc)
      Extracted.zero
  | .valid _ => none

/-- The fixed URL template of line 52:
`https://pub.orcid.org/v3.0/` + iD + `/person`. -/
def orcidUserInfoURL (iD : String) : String :=
  "https://pub.orcid.org/v3.0/" ++ iD ++ "/person"

/-- The request of lines 56-61: GET to the derived URL with the two added
headers. -/
def orcidRequest (url : String) : HttpRequest :=
  { method := "GET"
    url := url
    headers := [("Accept", "application/json"),
                ("Content-type", "application/json")] }

/-- `(p *ORCID) FetchAuthUser(token)` translated line by line.  The
environment supplies the external collaborators; the outcome records the
final provider state, the outbound requests and the returned
`(AuthUser, error)` pair. -/
def FetchAuthUser (env : Env) (p : BaseProvider) (token : Token) :
    FetchOutcome :=
  match token.extra "orcid" with
  | some (.str iD) =>
    if iD = "" then
      { provider := p, requests := [], result := .error .missingIdentifier }
    else
      let p := { p with userInfoURL := orcidUserInfoURL iD }
      if env.urlOk p.userInfoURL then
        let req := orcidRequest p.userInfoURL
        match env.fetch req with
        | .error e =>
          { provider := p, requests := [req], result := .error (.fetchError e) }
        | .ok data =>
          match unmarshalRaw data with
          | none =>
            { provider := p, requests := [req],
              result := .error .malformedResponse }
          | some rawUser =>
            match unmarshalExtracted data with
            | none =>
              { provider := p, requests := [req],
                result := .error .malformedResponse }
            | some extracted =>
              let name :=
                if extracted.name.creditName.value = "" then
                  if extracted.name.familyName.value ≠ "" then
                    extracted.name.givenNames.value ++ " " ++
                      extracted.name.familyName.value
                  else
                    extracted.name.givenNames.value
                else
                  extracted.name.creditName.value
              let email :=
                match extracted.emails.email with
                | [] => ""
                | e :: _ => e.email
              { provider := p, requests := [req],
                result := .ok
                  { name := name
                    username := iD
                    email := email
                    rawUser := rawUser
                    accessToken := token.accessToken
                    refreshToken := token.refreshToken
                    id := iD
                    expiry := (env.parseDateTime token.expiry).getD 0 } }
      else
        { provider := p, requests := [], result := .error .requestBuildError }
  | _ =>
    { provider := p, requests := [], result := .error .missingIdentifier }

/-- The ORCID iD used by the spec's scenario. -/
def adaID : String := "0000-0001-2345-6789"

/-- The top-level fields of the spec's scenario profile document, plus one
key (`path`) that the typed projection does not model. -/
def adaProfileFields : List (String × Json) :=
  [("name", .obj
     [("given-names", .obj [("value", .str "Ada")]),
      ("family-name", .obj [("value", .str "Lovelace")]),
      ("credit-name", .obj [("value", .str "")])]),
   ("emails", .obj
     [("email", .arr [.obj [("email", .str "ada@example.org")]])]),
   ("path", .str "/0000-0001-2345-6789/person")]

/-- The spec's scenario profile document. -/
def adaProfile : Json := .obj adaProfileFields

/-- A token carrying the scenario iD in its extra-field bag. -/
def adaToken : Token :=
  { accessToken := "access-tok"
    refreshToken := "refresh-tok"
    expiry := 100
    raw := [("orcid", .str adaID)] }

/-- An environment whose profile endpoint serves the scenario document. -/
def adaEnv : Env :=
  { urlOk := fun _ => true
    fetch := fun _ => .ok (.valid adaProfile)
    parseDateTime := fun n => some n }

/-- An environment whose profile endpoint serves an empty JSON object, so
every field of the typed projection stays at its zero value. -/
def emptyProfileEnv : Env :=
  { urlOk := fun _ => true
    fetch := fun _ => .ok (.valid (.obj []))
    parseDateTime := fun _ => none }

/-- The `AuthUser` that the success path of `FetchAuthUser` builds from the
extracted identifier, the decoded raw map and the typed projection (lines
94-118 of the source, written out as one record). -/
def expectedUser (env : Env) (t : Token) (iD : String)
    (rawUser : List (String × Json)) (E : Extracted) : AuthUser :=
  { name :=
      if E.name.creditName.value = "" then
        if E.name.familyName.value ≠ "" then
          E.name.givenNames.value ++ " " ++ E.name.familyName.value
        else
          E.name.givenNames.value
      else
        E.name.creditName.value
    username := iD
    email :=
      match E.emails.email with
      | [] => ""
      | e :: _ => e.email
    rawUser := rawUser
    accessToken := t.accessToken
    refreshToken := t.refreshToken
    id := iD
    expiry := (env.parseDateTime t.expiry).getD 0 }

/-- Forward characterization of the success path: when the identifier is
present and non-empty, the request builds, the fetch succeeds and both
parses succeed, the whole outcome is determined. -/
theorem fetchAuthUser_ok_forward (env : Env) (p : BaseProvider) (t : Token)
    (iD : String) (data : Body) (rawUser : List (String × Json))
    (E : Extracted)
    (hid : t.extra "orcid" = some (Json.str iD)) (hne : iD ≠ "")
    (hurl : env.urlOk (orcidUserInfoURL iD) = true)
    (hfetch : env.fetch (orcidRequest (orcidUserInfoURL iD)) = Except.ok data)
    (hraw : unmarshalRaw data = some rawUser)
    (hext : unmarshalExtracted data = some E) :
    FetchAuthUser env p t =
      { provider := { p with userInfoURL := orcidUserInfoURL iD }
        requests := [orcidRequest (orcidUserInfoURL iD)]
        result := Except.ok (expectedUser env t iD rawUser E) } := by
  unfold FetchAuthUser
  simp [hid, hne, hurl, hfetch, hraw, hext, expectedUser]

/-- Forward characterization of the missing-identifier path. -/
theorem fetchAuthUser_eq_missing (env : Env) (p : BaseProvider) (t : Token)
    (h : ∀ s, t.extra "orcid" = some (Json.str s) → s = "") :
    FetchAuthUser env p t =
      { provider := p, requests := []
        result := Except.error AuthError.missingIdentifier } := by
  unfold FetchAuthUser
  cases hx : t.extra "orcid" with
  | none => rfl
  | some j =>
    cases j with
    | str s =>
      have hs := h s hx
      subst hs
      simp
    | null => rfl
    | bool b => rfl
    | num n => rfl
    | arr xs => rfl
    | obj kvs => rfl

/-- Forward characterization of the request-construction failure path. -/
theorem fetchAuthUser_eq_buildError (env : Env) (p : BaseProvider) (t : Token)
    (iD : String)
    (hid : t.extra "orcid" = some (Json.str iD)) (hne : iD ≠ "")
    (hurl : env.urlOk (orcidUserInfoURL iD) = false) :
    FetchAuthUser env p t =
      { provider := { p with userInfoURL := orcidUserInfoURL iD }
        requests := []
        result := Except.error AuthError.requestBuildError } := by
  unfold FetchAuthUser
  simp [hid, hne, hurl]

/-- Forward characterization of the transport failure path. -/
theorem fetchAuthUser_eq_fetchError (env : Env) (p : BaseProvider) (t : Token)
    (iD : String) (e : String)
    (hid : t.extra "orcid" = some (Json.str iD)) (hne : iD ≠ "")
    (hurl : env.urlOk (orcidUserInfoURL iD) = true)
    (hfetch : env.fetch (orcidRequest (orcidUserInfoURL iD)) = Except.error e) :
    FetchAuthUser env p t =
      { provider := { p with userInfoURL := orcidUserInfoURL iD }
        requests := [orcidRequest (orcidUserInfoURL iD)]
        result := Except.error (AuthError.fetchError e) } := by
  unfold FetchAuthUser
  simp [hid, hne, hurl, hfetch]

/-- Forward characterization of the raw-parse failure path. -/
theorem fetchAuthUser_eq_malformedRaw (env : Env) (p : BaseProvider)
    (t : Token) (iD : String) (data : Body)
    (hid : t.extra "orcid" = some (Json.str iD)) (hne : iD ≠ "")
    (hurl : env.urlOk (orcidUserInfoURL iD) = true)
    (hfetch : env.fetch (orcidRequest (orcidUserInfoURL iD)) = Except.ok data)
    (hraw : unmarshalRaw data = none) :
    FetchAuthUser env p t =
      { provider := { p with userInfoURL := orcidUserInfoURL iD }
        requests := [orcidRequest (orcidUserInfoURL iD)]
        result := Except.error AuthError.malformedResponse } := by
  unfold FetchAuthUser
  simp [hid, hne, hurl, hfetch, hraw]

/-- Forward characterization of the typed-parse failure path. -/
theorem fetchAuthUser_eq_malformedTyped (env : Env) (p : BaseProvider)
    (t : Token) (iD : String) (data : Body) (rawUser : List (String × Json))
    (hid : t.extra "orcid" = some (Json.str iD)) (hne : iD ≠ "")
    (hurl : env.urlOk (orcidUserInfoURL iD) = true)
    (hfetch : env.fetch (orcidRequest (orcidUserInfoURL iD)) = Except.ok data)
    (hraw : unmarshalRaw data = some rawUser)
    (hext : unmarshalExtracted data = none) :
    FetchAuthUser env p t =
      { provider := { p with userInfoURL := orcidUserInfoURL iD }
        requests := [orcidRequest (orcidUserInfoURL iD)]
        result := Except.error AuthError.malformedResponse } := by
  unfold FetchAuthUser
  simp [hid, hne, hurl, hfetch, hraw, hext]

/-- Inversion of the success path: a successful result can only arise from
the success of every step, and the returned user is the expected record. -/
theorem fetchAuthUser_ok_inversion (env : Env) (p : BaseProvider) (t : Token)
    (u : AuthUser) (h : (FetchAuthUser env p t).result = Except.ok u) :
    ∃ iD data rawUser E,
      t.extra "orcid" = some (Json.str iD) ∧ iD ≠ "" ∧
      env.urlOk (orcidUserInfoURL iD) = true ∧
      env.fetch (orcidRequest (orcidUserInfoURL iD)) = Except.ok data ∧
      unmarshalRaw data = some rawUser ∧
      unmarshalExtracted data = some E ∧
      u = expectedUser env t iD rawUser E := by
  cases hx : t.extra "orcid" with
  | none =>
    rw [fetchAuthUser_eq_missing env p t
      (by intro s hs; rw [hx] at hs; cases hs)] at h
    simp at h
  | some j =>
    cases j with
    | null =>
      rw [fetchAuthUser_eq_missing env p t
        (by intro s hs; rw [hx] at hs; simp at hs)] at h
      simp at h
    | bool b =>
      rw [fetchAuthUser_eq_missing env p t
        (by intro s hs; rw [hx] at hs; simp at hs)] at h
      simp at h
    | num n =>
      rw [fetchAuthUser_eq_missing env p t
        (by intro s hs; rw [hx] at hs; simp at hs)] at h
      simp at h
    | arr xs =>
      rw [fetchAuthUser_eq_missing env p t
        (by intro s hs; rw [hx] at hs; simp at hs)] at h
      simp at h
    | obj kvs =>
      rw [fetchAuthUser_eq_missing env p t
        (by intro s hs; rw [hx] at hs; simp at hs)] at h
      simp at h
    | str iD =>
      by_cases hne : iD = ""
      · rw [fetchAuthUser_eq_missing env p t
          (by intro s hs; rw [hx] at hs; cases hs; exact hne)] at h
        simp at h
      · by_cases hurl : env.urlOk (orcidUserInfoURL iD) = true
        · cases hfe : env.fetch (orcidRequest (orcidUserInfoURL iD)) with
          | error e =>
            rw [fetchAuthUser_eq_fetchError env p t iD e hx hne hurl hfe] at h
            simp at h
          | ok data =>
            cases hraw : unmarshalRaw data with
            | none =>
              rw [fetchAuthUser_eq_malformedRaw env p t iD data
                hx hne hurl hfe hraw] at h
              simp at h
            | some rawUser =>
              cases hext : unmarshalExtracted data with
              | none =>
                rw [fetchAuthUser_eq_malformedTyped env p t iD data rawUser
                  hx hne hurl hfe hraw hext] at h
                simp at h
              | some E =>
                rw [fetchAuthUser_ok_forward env p t iD data rawUser E
                  hx hne hurl hfe hraw hext] at h
                exact ⟨iD, data, rawUser, E, rfl, hne, hurl, hfe, hraw, hext,
                  (Except.ok.inj h).symm⟩
        · have hurlf : env.urlOk (orcidUserInfoURL iD) = false := by
            simpa using hurl
          rw [fetchAuthUser_eq_buildError env p t iD hx hne hurlf] at h
          simp at h

/-- A token whose extra-field bag has no `orcid` key at all. -/
def noIDToken : Token :=
  { accessToken := "a", refreshToken := "r", expiry := 0, raw := [] }

/-- The identity that `FetchAuthUser` produces on the spec's scenario
input (checked below by `rfl`). -/
def adaUser : AuthUser :=
  { name := "Ada Lovelace"
    username := adaID
    email := "ada@example.org"
    rawUser := [("name", .obj
                  [("given-names", .obj [("value", .str "Ada")]),
                   ("family-name", .obj [("value", .str "Lovelace")]),
                   ("credit-name", .obj [("value", .str "")])]),
                ("emails", .obj
                  [("email", .arr [.obj [("email", .str "ada@example.org")]])]),
                ("path", .str "/0000-0001-2345-6789/person")]
    accessToken := "access-tok"
    refreshToken := "refresh-tok"
    id := adaID
    expiry := 100 }

/-- C2: for every token whose extra-field bag lacks the key `orcid`, or
whose value under that key is the empty string or not a string,
`FetchAuthUser` returns the missing-identifier error (no identity) and
issues no outbound request, so the fetch collaborator is never invoked. -/
theorem fetchAuthUser_missing_identifier (env : Env) (p : BaseProvider)
    (t : Token)
    (h : ∀ s, t.extra "orcid" = some (Json.str s) → s = "") :
    (FetchAuthUser env p t).result =
      Except.error AuthError.missingIdentifier ∧
    (FetchAuthUser env p t).requests = [] := by
  rw [fetchAuthUser_eq_missing env p t h]
  exact ⟨rfl, rfl⟩

/-- Witness for C2: a token with an empty extra-field bag fails with the
missing-identifier error and no request. -/
theorem fetchAuthUser_missing_identifier_witness :
    (FetchAuthUser adaEnv NewORCIDProvider noIDToken).result =
      Except.error AuthError.missingIdentifier ∧
    (FetchAuthUser adaEnv NewORCIDProvider noIDToken).requests = [] :=
  fetchAuthUser_missing_identifier adaEnv NewORCIDProvider noIDToken
    (by intro s hs; simp [Token.extra, noIDToken, List.find?] at hs)

/-- C4: on every successful resolution, the username and the stable
identifier are equal to each other, non-empty, and equal to the string
stored under the token's `orcid` extra key (the identifier of step 1). -/
theorem fetchAuthUser_identifier_propagation (env : Env) (p : BaseProvider)
    (t : Token) (u : AuthUser)
    (h : (FetchAuthUser env p t).result = Except.ok u) :
    u.username = u.id ∧ u.id ≠ "" ∧
      t.extra "orcid" = some (Json.str u.id) := by
  obtain ⟨iD, data, rawUser, E, hx, hne, -, -, -, -, hu⟩ :=
    fetchAuthUser_ok_inversion env p t u h
  subst hu
  exact ⟨rfl, hne, hx⟩

/-- Witness for C4 at the spec's scenario input. -/
theorem fetchAuthUser_identifier_propagation_witness :
    adaUser.username = adaUser.id ∧ adaUser.id ≠ "" ∧
      adaToken.extra "orcid" = some (Json.str adaUser.id) :=
  fetchAuthUser_identifier_propagation adaEnv NewORCIDProvider adaToken
    adaUser rfl

/-- C6: for every token whose `orcid` extra is a non-empty string `s` (and
for which the request constructor accepts the derived URL), the outbound
traffic is exactly one GET request to
`https://pub.orcid.org/v3.0/` ++ s ++ `/person` — `s` interpolated verbatim
into the fixed template — carrying the `Accept: application/json` and
`Content-type: application/json` headers. -/
theorem fetchAuthUser_request_shape (env : Env) (p : BaseProvider)
    (t : Token) (s : String)
    (hid : t.extra "orcid" = some (Json.str s)) (hne : s ≠ "")
    (hurl : env.urlOk ("https://pub.orcid.org/v3.0/" ++ s ++ "/person") = true) :
    (FetchAuthUser env p t).requests =
      [{ method := "GET"
         url := "https://pub.orcid.org/v3.0/" ++ s ++ "/person"
         headers := [("Accept", "application/json"),
                     ("Content-type", "application/json")] }] := by
  have hurl2 : env.urlOk (orcidUserInfoURL s) = true := hurl
  cases hfe : env.fetch (orcidRequest (orcidUserInfoURL s)) with
  | error e =>
    rw [fetchAuthUser_eq_fetchError env p t s e hid hne hurl2 hfe]
    rfl
  | ok data =>
    cases hraw : unmarshalRaw data with
    | none =>
      rw [fetchAuthUser_eq_malformedRaw env p t s data hid hne hurl2 hfe hraw]
      rfl
    | some r =>
      cases hext : unmarshalExtracted data with
      | none =>
        rw [fetchAuthUser_eq_malformedTyped env p t s data r
          hid hne hurl2 hfe hraw hext]
        rfl
      | some E =>
        rw [fetchAuthUser_ok_forward env p t s data r E
          hid hne hurl2 hfe hraw hext]
        rfl

/-- Witness for C6 at the spec's scenario input. -/
theorem fetchAuthUser_request_shape_witness :
    (FetchAuthUser adaEnv NewORCIDProvider adaToken).requests =
      [{ method := "GET"
         url := "https://pub.orcid.org/v3.0/" ++ adaID ++ "/person"
         headers := [("Accept", "application/json"),
                     ("Content-type", "application/json")] }] :=
  fetchAuthUser_request_shape adaEnv NewORCIDProvider adaToken adaID rfl
    (by decide) rfl

/-- C10: frame property of a call on the provider instance: whenever step 1
extracts a non-empty identifier, the post-call state is the pre-call state
with only `userInfoURL` overwritten by the derived URL; whenever step 1
fails, the state is completely untouched.  In particular `ctx`,
`displayName`, `pkce`, `scopes`, `authURL` and `tokenURL` never change. -/
theorem fetchAuthUser_frame (env : Env) (p : BaseProvider) (t : Token) :
    (∀ iD, t.extra "orcid" = some (Json.str iD) → iD ≠ "" →
      (FetchAuthUser env p t).provider =
        { p with userInfoURL := orcidUserInfoURL iD }) ∧
    ((∀ s, t.extra "orcid" = some (Json.str s) → s = "") →
      (FetchAuthUser env p t).provider = p) := by
  constructor
  · intro iD hid hne
    by_cases hurl : env.urlOk (orcidUserInfoURL iD) = true
    · cases hfe : env.fetch (orcidRequest (orcidUserInfoURL iD)) with
      | error e =>
        rw [fetchAuthUser_eq_fetchError env p t iD e hid hne hurl hfe]
      | ok data =>
        cases hraw : unmarshalRaw data with
        | none =>
          rw [fetchAuthUser_eq_malformedRaw env p t iD data
            hid hne hurl hfe hraw]
        | some r =>
          cases hext : unmarshalExtracted data with
          | none =>
            rw [fetchAuthUser_eq_malformedTyped env p t iD data r
              hid hne hurl hfe hraw hext]
          | some E =>
            rw [fetchAuthUser_ok_forward env p t iD data r E
              hid hne hurl hfe hraw hext]
    · have hurlf : env.urlOk (orcidUserInfoURL iD) = false := by
        simpa using hurl
      rw [fetchAuthUser_eq_buildError env p t iD hid hne hurlf]
  · intro h
    rw [fetchAuthUser_eq_missing env p t h]

/-- Witness for C10 at the spec's scenario input. -/
theorem fetchAuthUser_frame_witness :
    (FetchAuthUser adaEnv NewORCIDProvider adaToken).provider =
      { NewORCIDProvider with userInfoURL := orcidUserInfoURL adaID } :=
  (fetchAuthUser_frame adaEnv NewORCIDProvider adaToken).1 adaID rfl
    (by decide)

/-- C9: expiry absorption: replacing the expiry parser changes nothing in
the outcome except the expiry field of a successful identity, which becomes
the new parse result, or the zero value `0` when that parse fails.  In
particular a parse failure (`f t.expiry = none`) never makes `FetchAuthUser`
fail, sets the expiry to the zero value, and leaves every other identity
field exactly as a successful parse would. -/
theorem fetchAuthUser_expiry_absorbed (env : Env) (f : Int → Option Int)
    (p : BaseProvider) (t : Token) :
    FetchAuthUser { env with parseDateTime := f } p t =
      { provider := (FetchAuthUser env p t).provider
        requests := (FetchAuthUser env p t).requests
        result := (FetchAuthUser env p t).result.map
          (fun u => { u with expiry := (f t.expiry).getD 0 }) } := by
  obtain ⟨uo, fe, pd⟩ := env
  show FetchAuthUser ⟨uo, fe, f⟩ p t =
    { provider := (FetchAuthUser ⟨uo, fe, pd⟩ p t).provider
      requests := (FetchAuthUser ⟨uo, fe, pd⟩ p t).requests
      result := (FetchAuthUser ⟨uo, fe, pd⟩ p t).result.map
        (fun u => { u with expiry := (f t.expiry).getD 0 }) }
  by_cases hmiss : ∀ s, t.extra "orcid" = some (Json.str s) → s = ""
  · rw [fetchAuthUser_eq_missing ⟨uo, fe, f⟩ p t hmiss,
      fetchAuthUser_eq_missing ⟨uo, fe, pd⟩ p t hmiss]
    rfl
  · push_neg at hmiss
    obtain ⟨iD, hid, hne⟩ := hmiss
    by_cases hurl : uo (orcidUserInfoURL iD) = true
    · cases hfe2 : fe (orcidRequest (orcidUserInfoURL iD)) with
      | error e =>
        rw [fetchAuthUser_eq_fetchError ⟨uo, fe, f⟩ p t iD e hid hne hurl hfe2,
          fetchAuthUser_eq_fetchError ⟨uo, fe, pd⟩ p t iD e hid hne hurl hfe2]
        rfl
      | ok data =>
        cases hraw : unmarshalRaw data with
        | none =>
          rw [fetchAuthUser_eq_malformedRaw ⟨uo, fe, f⟩ p t iD data
              hid hne hurl hfe2 hraw,
            fetchAuthUser_eq_malformedRaw ⟨uo, fe, pd⟩ p t iD data
              hid hne hurl hfe2 hraw]
          rfl
        | some r =>
          cases hext : unmarshalExtracted data with
          | none =>
            rw [fetchAuthUser_eq_malformedTyped ⟨uo, fe, f⟩ p t iD data r
                hid hne hurl hfe2 hraw hext,
              fetchAuthUser_eq_malformedTyped ⟨uo, fe, pd⟩ p t iD data r
                hid hne hurl hfe2 hraw hext]
            rfl
          | some E =>
            rw [fetchAuthUser_ok_forward ⟨uo, fe, f⟩ p t iD data r E
                hid hne hurl hfe2 hraw hext,
              fetchAuthUser_ok_forward ⟨uo, fe, pd⟩ p t iD data r E
                hid hne hurl hfe2 hraw hext]
            rfl
    · have hurlf : uo (orcidUserInfoURL iD) = false := by
        simpa using hurl
      rw [fetchAuthUser_eq_buildError ⟨uo, fe, f⟩ p t iD hid hne hurlf,
        fetchAuthUser_eq_buildError ⟨uo, fe, pd⟩ p t iD hid hne hurlf]
      rfl

/-- C1: name normalization fallback chain: for every successfully fetched
and parsed profile, the resulting name is the credit-name value when that is
non-empty (regardless of given/family names); otherwise given-names ++ " "
++ family-name when the family-name value is non-empty; otherwise the
given-names value alone (even if it is empty). -/
theorem fetchAuthUser_name_fallback (env : Env) (p : BaseProvider)
    (t : Token) (iD : String) (data : Body) (rawUser : List (String × Json))
    (E : Extracted)
    (hid : t.extra "orcid" = some (Json.str iD)) (hne : iD ≠ "")
    (hurl : env.urlOk (orcidUserInfoURL iD) = true)
    (hfetch : env.fetch (orcidRequest (orcidUserInfoURL iD)) = Except.ok data)
    (hraw : unmarshalRaw data = some rawUser)
    (hext : unmarshalExtracted data = some E) :
    ∃ u, (FetchAuthUser env p t).result = Except.ok u ∧
      u.name =
        (if E.name.creditName.value ≠ "" then E.name.creditName.value
         else if E.name.familyName.value ≠ "" then
           E.name.givenNames.value ++ " " ++ E.name.familyName.value
         else E.name.givenNames.value) := by
  refine ⟨expectedUser env t iD rawUser E, ?_, ?_⟩
  · rw [fetchAuthUser_ok_forward env p t iD data rawUser E
      hid hne hurl hfetch hraw hext]
  · by_cases hc : E.name.creditName.value = "" <;>
      simp [expectedUser, hc]

/-- The typed projection of the scenario profile. -/
def adaExtracted : Extracted :=
  { name := { givenNames := ⟨"Ada"⟩, familyName := ⟨"Lovelace"⟩
              creditName := ⟨""⟩ }
    emails := { email := [⟨"ada@example.org"⟩] } }

/-- Witness for C1 at the spec's scenario input. -/
theorem fetchAuthUser_name_fallback_witness :
    ∃ u, (FetchAuthUser adaEnv NewORCIDProvider adaToken).result =
        Except.ok u ∧
      u.name =
        (if adaExtracted.name.creditName.value ≠ "" then
           adaExtracted.name.creditName.value
         else if adaExtracted.name.familyName.value ≠ "" then
           adaExtracted.name.givenNames.value ++ " " ++
             adaExtracted.name.familyName.value
         else adaExtracted.name.givenNames.value) :=
  fetchAuthUser_name_fallback adaEnv NewORCIDProvider adaToken adaID
    (Body.valid adaProfile) adaUser.rawUser adaExtracted rfl (by decide)
    rfl rfl rfl rfl

/-- C5: email selection: for every successfully fetched and parsed profile,
the identity's email is the email string of the first entry of the typed
email list when that list is non-empty, and the empty string when the list
is empty — in both cases the resolution still succeeds. -/
theorem fetchAuthUser_email_selection (env : Env) (p : BaseProvider)
    (t : Token) (iD : String) (data : Body) (rawUser : List (String × Json))
    (E : Extracted)
    (hid : t.extra "orcid" = some (Json.str iD)) (hne : iD ≠ "")
    (hurl : env.urlOk (orcidUserInfoURL iD) = true)
    (hfetch : env.fetch (orcidRequest (orcidUserInfoURL iD)) = Except.ok data)
    (hraw : unmarshalRaw data = some rawUser)
    (hext : unmarshalExtracted data = some E) :
    ∃ u, (FetchAuthUser env p t).result = Except.ok u ∧
      (∀ e rest, E.emails.email = e :: rest → u.email = e.email) ∧
      (E.emails.email = [] → u.email = "") := by
  refine ⟨expectedUser env t iD rawUser E, ?_, ?_, ?_⟩
  · rw [fetchAuthUser_ok_forward env p t iD data rawUser E
      hid hne hurl hfetch hraw hext]
  · intro e rest hE
    simp [expectedUser, hE]
  · intro hE
    simp [expectedUser, hE]

/-- Witness for C5 at the spec's scenario input (a one-entry email list). -/
theorem fetchAuthUser_email_selection_witness :
    ∃ u, (FetchAuthUser adaEnv NewORCIDProvider adaToken).result =
        Except.ok u ∧
      (∀ e rest, adaExtracted.emails.email = e :: rest → u.email = e.email) ∧
      (adaExtracted.emails.email = [] → u.email = "") :=
  fetchAuthUser_email_selection adaEnv NewORCIDProvider adaToken adaID
    (Body.valid adaProfile) adaUser.rawUser adaExtracted rfl (by decide)
    rfl rfl rfl rfl

/-- C3 counterexample: a profile whose credit-name, given-names and
family-name values are all absent (the empty JSON object) resolves
successfully, yet the identity's display name is the empty string. -/
theorem fetchAuthUser_empty_name_on_success :
    (FetchAuthUser emptyProfileEnv NewORCIDProvider adaToken).result.map
      (fun u => u.name) = Except.ok "" := rfl

/-- C3 amended: on every successful resolution the display name is empty
exactly when the parsed credit-name, given-names and family-name values are
all empty; in particular it is non-empty whenever any of the three is
non-empty. -/
theorem fetchAuthUser_name_empty_iff (env : Env) (p : BaseProvider)
    (t : Token) (iD : String) (data : Body) (rawUser : List (String × Json))
    (E : Extracted)
    (hid : t.extra "orcid" = some (Json.str iD)) (hne : iD ≠ "")
    (hurl : env.urlOk (orcidUserInfoURL iD) = true)
    (hfetch : env.fetch (orcidRequest (orcidUserInfoURL iD)) = Except.ok data)
    (hraw : unmarshalRaw data = some rawUser)
    (hext : unmarshalExtracted data = some E) :
    ∃ u, (FetchAuthUser env p t).result = Except.ok u ∧
      (u.name = "" ↔
        (E.name.creditName.value = "" ∧ E.name.givenNames.value = "" ∧
          E.name.familyName.value = "")) := by
  refine ⟨expectedUser env t iD rawUser E, ?_, ?_⟩
  · rw [fetchAuthUser_ok_forward env p t iD data rawUser E
      hid hne hurl hfetch hraw hext]
  · constructor
    · intro h0
      by_cases hc : E.name.creditName.value = ""
      · by_cases hf : E.name.familyName.value = ""
        · exact ⟨hc, by simpa [expectedUser, hc, hf] using h0, hf⟩
        · exfalso
          have h1 : E.name.givenNames.value ++ " " ++
              E.name.familyName.value = "" := by
            simpa [expectedUser, hc, hf] using h0
          have hl := congrArg String.length h1
          have hsp : (" " : String).length = 1 := rfl
          have hemp : ("" : String).length = 0 := rfl
          simp only [String.length_append, hsp, hemp] at hl
          omega
      · exact absurd (by simpa [expectedUser, hc] using h0) hc
    · rintro ⟨hc, hg, hf⟩
      simp [expectedUser, hc, hg, hf]

/-- Witness for the amended C3: the all-empty profile yields an empty name,
and the equivalence holds at that input. -/
theorem fetchAuthUser_name_empty_iff_witness :
    ∃ u, (FetchAuthUser emptyProfileEnv NewORCIDProvider adaToken).result =
        Except.ok u ∧
      (u.name = "" ↔
        (Extracted.zero.name.creditName.value = "" ∧
          Extracted.zero.name.givenNames.value = "" ∧
          Extracted.zero.name.familyName.value = "")) :=
  fetchAuthUser_name_empty_iff emptyProfileEnv NewORCIDProvider adaToken
    adaID (Body.valid (Json.obj [])) [] Extracted.zero rfl (by decide)
    rfl rfl rfl rfl

/-- C7: dual parse atomicity: once the body is fetched, the resolution
succeeds exactly when both the raw parse and the typed parse of the same
body succeed, and if either parse fails the result is the
malformed-response error (no identity). -/
theorem fetchAuthUser_dual_parse (env : Env) (p : BaseProvider) (t : Token)
    (iD : String) (data : Body)
    (hid : t.extra "orcid" = some (Json.str iD)) (hne : iD ≠ "")
    (hurl : env.urlOk (orcidUserInfoURL iD) = true)
    (hfetch : env.fetch (orcidRequest (orcidUserInfoURL iD)) = Except.ok data) :
    (((unmarshalRaw data).isSome ∧ (unmarshalExtracted data).isSome) ↔
      ∃ u, (FetchAuthUser env p t).result = Except.ok u) ∧
    ((unmarshalRaw data = none ∨ unmarshalExtracted data = none) →
      (FetchAuthUser env p t).result =
        Except.error AuthError.malformedResponse) := by
  constructor
  · constructor
    · rintro ⟨h1, h2⟩
      obtain ⟨r, hr⟩ := Option.isSome_iff_exists.mp h1
      obtain ⟨E, hE⟩ := Option.isSome_iff_exists.mp h2
      exact ⟨expectedUser env t iD r E, by
        rw [fetchAuthUser_ok_forward env p t iD data r E
          hid hne hurl hfetch hr hE]⟩
    · rintro ⟨u, hu⟩
      obtain ⟨iD2, data2, r2, E2, hx2, hne2, hurl2, hfe2, hraw2, hext2, hu2⟩ :=
        fetchAuthUser_ok_inversion env p t u hu
      rw [hid] at hx2
      cases hx2
      rw [hfetch] at hfe2
      cases hfe2
      exact ⟨by simp [hraw2], by simp [hext2]⟩
  · intro h
    cases h with
    | inl hraw =>
      rw [fetchAuthUser_eq_malformedRaw env p t iD data
        hid hne hurl hfetch hraw]
    | inr hext =>
      cases hraw2 : unmarshalRaw data with
      | none =>
        rw [fetchAuthUser_eq_malformedRaw env p t iD data
          hid hne hurl hfetch hraw2]
      | some r =>
        rw [fetchAuthUser_eq_malformedTyped env p t iD data r
          hid hne hurl hfetch hraw2 hext]

/-- Witness for C7 at the spec's scenario input. -/
theorem fetchAuthUser_dual_parse_witness :
    (((unmarshalRaw (Body.valid adaProfile)).isSome ∧
        (unmarshalExtracted (Body.valid adaProfile)).isSome) ↔
      ∃ u, (FetchAuthUser adaEnv NewORCIDProvider adaToken).result =
        Except.ok u) ∧
    ((unmarshalRaw (Body.valid adaProfile) = none ∨
        unmarshalExtracted (Body.valid adaProfile) = none) →
      (FetchAuthUser adaEnv NewORCIDProvider adaToken).result =
        Except.error AuthError.malformedResponse) :=
  fetchAuthUser_dual_parse adaEnv NewORCIDProvider adaToken adaID
    (Body.valid adaProfile) rfl (by decide) rfl rfl

/-- `goMapInsert` on a key that is not yet present appends the binding. -/
theorem goMapInsert_not_mem (m : List (String × Json)) (k : String) (v : Json)
    (h : m.any (fun kv => kv.1 = k) = false) :
    goMapInsert m k v = m ++ [(k, v)] := by
  simp [goMapInsert, h]

/-- The `map[string]any` fold keeps the entries verbatim when the keys are
pairwise distinct. -/
theorem goMapOfObj_foldl_nodup (kvs : List (String × Json)) :
    ∀ acc, ((acc ++ kvs).map Prod.fst).Nodup →
      kvs.foldl (fun m kv => goMapInsert m kv.1 kv.2) acc = acc ++ kvs := by
  induction kvs with
  | nil => intro acc h; simp
  | cons kv rest ih =>
    intro acc h
    obtain ⟨k, v⟩ := kv
    have hk : k ∉ acc.map Prod.fst := by
      intro hmem
      rw [List.map_append, List.nodup_append] at h
      exact h.2.2 hmem (by simp)
    have hany : acc.any (fun kv => kv.1 = k) = false := by
      rw [← Bool.not_eq_true, List.any_eq_true]
      rintro ⟨⟨k1, v1⟩, hmem, hEq⟩
      simp only [decide_eq_true_eq] at hEq
      exact hk (by simpa [hEq] using List.mem_map_of_mem Prod.fst hmem)
    simp only [List.foldl_cons]
    rw [goMapInsert_not_mem acc k v hany]
    have h2 : (((acc ++ [(k, v)]) ++ rest).map Prod.fst).Nodup := by
      simpa [List.append_assoc] using h
    rw [ih (acc ++ [(k, v)]) h2]
    simp

/-- `json.Unmarshal` into `map[string]any` is the identity on objects whose
top-level keys are pairwise distinct. -/
theorem goMapOfObj_nodup (kvs : List (String × Json))
    (h : (kvs.map Prod.fst).Nodup) : goMapOfObj kvs = kvs := by
  have := goMapOfObj_foldl_nodup kvs [] (by simpa using h)
  simpa [goMapOfObj] using this

/-- C8: raw-profile fidelity: when the fetched body is a valid JSON object
(with pairwise-distinct top-level keys) and the resolution succeeds, every
top-level binding of that object — including keys the typed projection does
not model — is contained verbatim in the identity's raw-user mapping. -/
theorem fetchAuthUser_raw_fidelity (env : Env) (p : BaseProvider) (t : Token)
    (iD : String) (kvs : List (String × Json)) (u : AuthUser)
    (hid : t.extra "orcid" = some (Json.str iD)) (hne : iD ≠ "")
    (hurl : env.urlOk (orcidUserInfoURL iD) = true)
    (hfetch : env.fetch (orcidRequest (orcidUserInfoURL iD)) =
      Except.ok (Body.valid (Json.obj kvs)))
    (hnodup : (kvs.map Prod.fst).Nodup)
    (hu : (FetchAuthUser env p t).result = Except.ok u) :
    ∀ kv ∈ kvs, kv ∈ u.rawUser := by
  obtain ⟨iD2, data2, r2, E2, hx2, hne2, hurl2, hfe2, hraw2, hext2, hu2⟩ :=
    fetchAuthUser_ok_inversion env p t u hu
  rw [hid] at hx2
  cases hx2
  rw [hfetch] at hfe2
  cases hfe2
  have hr : goMapOfObj kvs = r2 := Option.some.inj hraw2
  subst hu2
  intro kv hkv
  show kv ∈ r2
  rw [← hr, goMapOfObj_nodup kvs hnodup]
  exact hkv

/-- Witness for C8 at the spec's scenario input, whose profile has the
unmodeled top-level key `path`. -/
theorem fetchAuthUser_raw_fidelity_witness :
    ("path", Json.str "/0000-0001-2345-6789/person") ∈ adaUser.rawUser :=
  fetchAuthUser_raw_fidelity adaEnv NewORCIDProvider adaToken adaID
    adaProfileFields adaUser rfl (by decide) rfl rfl (by decide) rfl
    ("path", Json.str "/0000-0001-2345-6789/person")
    (List.Mem.tail _ (List.Mem.tail _ (List.Mem.head _)))
